import Mathlib

/-!
Verification of the core runtime of the jx3 plugin:
the resilient HTTP client (src/util/http_util.py), the cron scheduler
(src/util/job_util.py) and the change-detection / orchestration logic of the
plugin body (src/main.py), shallowly embedded in Lean.
-/

/-! ## JSON values

Python values flowing through the plugin (decoded JSON bodies, the stored
last-observation slots) are modelled by a mutual inductive; Python None and
JSON null coincide (Json.null). -/

mutual
inductive Json where
  | null
  | num (n : Int)
  | str (s : String)
  | arr (xs : JsonList)
  | obj (fields : JsonFields)
inductive JsonList where
  | nil
  | cons (hd : Json) (tl : JsonList)
inductive JsonFields where
  | fnil
  | fcons (key : String) (val : Json) (tl : JsonFields)
end

mutual
/-- Python structural equality restricted to JSON-shaped values. -/
def Json.beq : Json → Json → Bool
  | .null, .null => true
  | .num a, .num b => a == b
  | .str a, .str b => a == b
  | .arr a, .arr b => JsonList.beq a b
  | .obj a, .obj b => JsonFields.beq a b
  | _, _ => false
/-- Elementwise equality of JSON arrays. -/
def JsonList.beq : JsonList → JsonList → Bool
  | .nil, .nil => true
  | .cons a as, .cons b bs => Json.beq a b && JsonList.beq as bs
  | _, _ => false
/-- Keywise equality of JSON objects (field order significant, as in the
modelled payloads where field order is fixed). -/
def JsonFields.beq : JsonFields → JsonFields → Bool
  | .fnil, .fnil => true
  | .fcons k a as, .fcons l b bs => k == l && Json.beq a b && JsonFields.beq as bs
  | _, _ => false
end

mutual
theorem Json.beq_refl : ∀ j : Json, Json.beq j j = true
  | .null => rfl
  | .num n => by simp [Json.beq]
  | .str s => by simp [Json.beq]
  | .arr xs => by simp [Json.beq]; exact JsonList.beq_refl_list xs
  | .obj fs => by simp [Json.beq]; exact JsonFields.beq_refl_fields fs
theorem JsonList.beq_refl_list : ∀ xs : JsonList, JsonList.beq xs xs = true
  | .nil => rfl
  | .cons a as => by simp [JsonList.beq]; exact ⟨Json.beq_refl a, JsonList.beq_refl_list as⟩
theorem JsonFields.beq_refl_fields : ∀ fs : JsonFields, JsonFields.beq fs fs = true
  | .fnil => rfl
  | .fcons k a as => by
      simp [JsonFields.beq]; exact ⟨Json.beq_refl a, JsonFields.beq_refl_fields as⟩
end

theorem Json.eq_null_of_beq_null : ∀ j : Json, Json.beq j .null = true → j = .null
  | .null, _ => rfl

/-- Python exception classes raised by the subscription / lookup operations
the plugin performs on decoded JSON values. -/
inductive PyErr where
  | typeError
  | keyError
  | indexError
deriving DecidableEq

/-- Lookup of a string key in a JSON object, as Python field access. -/
def JsonFields.lookup : JsonFields → String → Option Json
  | .fnil, _ => none
  | .fcons k v rest, key => if k == key then some v else JsonFields.lookup rest key

/-- Indexing of a JSON array. -/
def JsonList.get? : JsonList → Nat → Option Json
  | .nil, _ => none
  | .cons a _, 0 => some a
  | .cons _ rest, n + 1 => JsonList.get? rest n

/-- Python subscription v[key] with a string key: value on a dict holding the
key, KeyError on a dict missing it, TypeError on any non-dict
(None, numbers, strings and lists are not subscriptable by a string). -/
def pyGetItem (j : Json) (key : String) : Except PyErr Json :=
  match j with
  | .obj fs =>
    match fs.lookup key with
    | some v => Except.ok v
    | none => Except.error .keyError
  | _ => Except.error .typeError

/-- Python subscription v[i] with a non-negative integer index: element or
IndexError on a list, one-character string or IndexError on a string,
KeyError on a dict (whose keys are strings), TypeError otherwise. -/
def pyGetIndex (j : Json) (i : Nat) : Except PyErr Json :=
  match j with
  | .arr xs =>
    match xs.get? i with
    | some v => Except.ok v
    | none => Except.error .indexError
  | .str s =>
    match s.data.get? i with
    | some c => Except.ok (.str (String.mk [c]))
    | none => Except.error .indexError
  | .obj _ => Except.error .keyError
  | _ => Except.error .typeError

/-! ## AsyncHttpUtil (src/util/http_util.py)

The transport (aiohttp) is an oracle assigning an outcome to every attempt:
either a response arrived (with a status and a parsed JSON body), or the
attempt failed with one of the three retryable exception classes listed at
lines 79-83 (ClientConnectionError, ClientPayloadError, asyncio.TimeoutError),
or it failed with some other exception.  The attempt made when the retry
counter equals r is given by attempts r, since the counter increments exactly
once per retryable failure. -/

inductive AttemptOutcome where
  | response (status : Nat) (body : Json)
  | retryableFailure
  | otherFailure

/-- Outcome of one logical request as seen by the caller of get / post. -/
inductive RequestResult where
  | ok (body : Json)
  | fatalStatus (status : Nat)
  | raisedOther
  | exhausted

/-- Default retry count, cls maxRetries field (line 17). -/
def maxRetries : Nat := 3

/-- Default base retry delay in seconds, 0.5 (line 18). -/
def baseRetryDelay : ℚ := 1 / 2

/-- Upper bound of the uniform jitter added to each backoff delay, 0.1
seconds; random.uniform is modelled over exact rationals, with the jitter
drawn from the half-open interval from 0 to this bound. -/
def jitterBound : ℚ := 1 / 10

/-- The while loop of AsyncHttpUtil.request (lines 67-93).  The fuel argument
is maxRetries minus the current value of the retries counter, so the loop
guard retries < maxRetries is exactly fuel > 0.  Returns the caller-visible
result and the list of backoff delays slept, in order.  A non-2xx status
raises aiohttp.ClientResponseError (line 75), which is not one of the three
retryable classes and is therefore re-raised by the final except arm
(lines 89-91) without sleeping or incrementing the counter. -/
def requestAux (attempts : Nat → AttemptOutcome) (jitter : Nat → ℚ) :
    Nat → Nat → RequestResult × List ℚ
  | 0, _ => (.exhausted, [])
  | fuel + 1, retries =>
    match attempts retries with
    | .response status body =>
      if 200 ≤ status ∧ status < 300 then (.ok body, [])
      else (.fatalStatus status, [])
    | .retryableFailure =>
      let d := baseRetryDelay * 2 ^ retries + jitter retries
      let rest := requestAux attempts jitter fuel (retries + 1)
      (rest.1, d :: rest.2)
    | .otherFailure => (.raisedOther, [])

/-- One logical request (the body shared by AsyncHttpUtil.get and
AsyncHttpUtil.post): the loop starts with retries = 0. -/
def request (attempts : Nat → AttemptOutcome) (jitter : Nat → ℚ) :
    RequestResult × List ℚ :=
  requestAux attempts jitter maxRetries 0

/-- Characterization of the backoff-delay trace of the retry loop: at most
fuel delays are recorded, and the i-th recorded delay is the exponential
backoff for attempt index r + i plus its jitter. -/
theorem requestAux_delays (attempts : Nat → AttemptOutcome) (jitter : Nat → ℚ) :
    ∀ fuel r, (requestAux attempts jitter fuel r).2.length ≤ fuel ∧
      ∀ i (h : i < (requestAux attempts jitter fuel r).2.length),
        (requestAux attempts jitter fuel r).2.get ⟨i, h⟩ =
          baseRetryDelay * 2 ^ (r + i) + jitter (r + i) := by
  intro fuel
  induction fuel with
  | zero =>
    intro r
    constructor
    · simp [requestAux]
    · intro i h
      simp [requestAux] at h
  | succ n ih =>
    intro r
    match hA : attempts r with
    | .response status body =>
      constructor
      · by_cases hst : 200 ≤ status ∧ status < 300 <;>
          simp [requestAux, hA, hst]
      · intro i h
        by_cases hst : 200 ≤ status ∧ status < 300 <;>
          simp [requestAux, hA, hst] at h
    | .retryableFailure =>
      have ihr := ih (r + 1)
      constructor
      · simpa [requestAux, hA] using ihr.1
      · intro i h
        match i with
        | 0 => simp [requestAux, hA]
        | i + 1 =>
          have h2 : i < (requestAux attempts jitter n (r + 1)).2.length := by
            simpa [requestAux, hA] using h
          have := ihr.2 i h2
          simpa [requestAux, hA, Nat.add_assoc, Nat.add_comm 1 i] using this
    | .otherFailure =>
      constructor
      · simp [requestAux, hA]
      · intro i h
        simp [requestAux, hA] at h

/-- C2: for every single logical HTTP request made via get or post, an attempt
whose response status lies in [200,300) returns the parsed JSON body
immediately with no retry, and an attempt whose status lies outside that
range raises immediately on that attempt, consuming no retry slot and
sleeping no backoff delay: the request ends at the first attempt that yields
a response, with exactly the backoff delays of the earlier retryable
failures and none for the responding attempt itself. -/
theorem C2_status_decides_attempt_immediately
    (attempts : Nat → AttemptOutcome) (jitter : Nat → ℚ) (r status : Nat) (body : Json)
    (hr : r < maxRetries)
    (hfail : ∀ i, i < r → attempts i = .retryableFailure)
    (hresp : attempts r = .response status body) :
    request attempts jitter =
      ((if 200 ≤ status ∧ status < 300 then .ok body else .fatalStatus status),
       (List.range r).map fun i => baseRetryDelay * 2 ^ i + jitter i) := by
  have hr3 : r < 3 := by simpa [maxRetries] using hr
  interval_cases r
  · by_cases hst : 200 ≤ status ∧ status < 300 <;>
      simp [request, requestAux, maxRetries, hresp, hst]
  · have h0 := hfail 0 (by norm_num)
    by_cases hst : 200 ≤ status ∧ status < 300 <;>
      simp [request, requestAux, maxRetries, h0, hresp, hst, List.range_succ]
  · have h0 := hfail 0 (by norm_num)
    have h1 := hfail 1 (by norm_num)
    by_cases hst : 200 ≤ status ∧ status < 300 <;>
      simp [request, requestAux, maxRetries, h0, h1, hresp, hst, List.range_succ]

/-- A transport oracle whose first attempt drops the connection and whose
later attempts answer 204 with a JSON body. -/
def witnessAttempts : Nat → AttemptOutcome :=
  fun i => if i = 0 then .retryableFailure else .response 204 (Json.str "ok")

/-- A jitter draw that is always zero. -/
def witnessJitter : Nat → ℚ := fun _ => 0

/-- Witness for C2 at a concrete input: one connection failure, then a 204
response; the body is returned with exactly one backoff delay recorded. -/
theorem C2_witness :
    request witnessAttempts witnessJitter =
      ((if 200 ≤ 204 ∧ 204 < 300 then .ok (Json.str "ok") else .fatalStatus 204),
       (List.range 1).map fun i => baseRetryDelay * 2 ^ i + witnessJitter i) :=
  C2_status_decides_attempt_immediately witnessAttempts witnessJitter 1 204
    (Json.str "ok") (by decide) (fun i hi => by interval_cases i; rfl) rfl

/-- C3: a logical request all of whose attempts fail with a retryable
transport failure stops after maxRetries failures and returns the absent
result (Python None) to the caller; no exception is raised for retry
exhaustion. -/
theorem C3_exhaustion_returns_absent
    (attempts : Nat → AttemptOutcome) (jitter : Nat → ℚ)
    (hfail : ∀ i, i < maxRetries → attempts i = .retryableFailure) :
    (request attempts jitter).1 = .exhausted := by
  have h0 := hfail 0 (by norm_num [maxRetries])
  have h1 := hfail 1 (by norm_num [maxRetries])
  have h2 := hfail 2 (by norm_num [maxRetries])
  simp [request, requestAux, maxRetries, h0, h1, h2]

/-- A transport oracle that always fails with a retryable failure. -/
def alwaysFailingAttempts : Nat → AttemptOutcome := fun _ => .retryableFailure

/-- Witness for C3 at a concrete input: three timeouts in a row give the
absent result. -/
theorem C3_witness :
    (request alwaysFailingAttempts witnessJitter).1 = .exhausted :=
  C3_exhaustion_returns_absent alwaysFailingAttempts witnessJitter
    (fun _ _ => rfl)

/-- C6: for every single logical request, at most maxRetries attempts are
consumed by retryable failures (at most maxRetries backoff delays are ever
slept), and the delay slept after the failure of attempt i lies in the
half-open interval from baseRetryDelay times 2 to the i, inclusive, to that
value plus the jitter bound, exclusive. -/
theorem C6_backoff_count_and_bounds
    (attempts : Nat → AttemptOutcome) (jitter : Nat → ℚ)
    (hj : ∀ i, 0 ≤ jitter i ∧ jitter i < jitterBound) :
    (request attempts jitter).2.length ≤ maxRetries ∧
    ∀ i (h : i < (request attempts jitter).2.length),
      baseRetryDelay * 2 ^ i ≤ (request attempts jitter).2.get ⟨i, h⟩ ∧
      (request attempts jitter).2.get ⟨i, h⟩ < baseRetryDelay * 2 ^ i + jitterBound := by
  have e : request attempts jitter = requestAux attempts jitter maxRetries 0 := rfl
  rw [e]
  have hc := requestAux_delays attempts jitter maxRetries 0
  refine ⟨hc.1, ?_⟩
  intro i h
  have hg := hc.2 i h
  rw [hg]
  simp only [Nat.zero_add]
  exact ⟨le_add_of_nonneg_right (hj i).1, by linarith [(hj i).2]⟩

/-- Witness for C6 at a concrete input: the all-failures request with zero
jitter records at most three delays. -/
theorem C6_witness :
    (request alwaysFailingAttempts witnessJitter).2.length ≤ maxRetries :=
  (C6_backoff_count_and_bounds alwaysFailingAttempts witnessJitter
    (fun _ => ⟨le_refl 0, by norm_num [jitterBound, witnessJitter]⟩)).1

/-! ## Orchestration boundary (src/main.py, result_handler lines 142-195)

The outbound message API (self.context.send_message) is modelled by the list
of (destination, payload) pairs a call produces; an exception that escapes
result_handler itself is an Except.error.  The HTTP layer outcome of the
awaited AsyncHttpUtil.post call is either a raised exception (caught by the
first try) or a returned value, which is Optional: None is the retry
exhaustion sentinel of the HTTP layer. -/

/-- A destination (unified_msg_origin of the event, or a subscriber group). -/
abbrev Dest := String

/-- A message component produced by a data handler; the Plain components of
src/main.py carry interpolated values, kept here unformatted. -/
inductive OutMsg where
  | skillInfo (title url : Json)
  | serverOpen (serverName : String) (time : Json)

/-- A delivered message chain: either the error chain built by
return_error_msg, or the components produced by a success handler. -/
inductive Payload where
  | errorChain (msg : Json)
  | items (xs : List OutMsg)

/-- The outcome of the awaited AsyncHttpUtil.post call inside
result_handler. -/
inductive HttpOutcome where
  | raised (e : String)
  | returned (r : Option Json)

/-- Jx3Plugin return_error_msg (lines 185-195): nothing is sent when the
event is absent (scheduler-triggered call); otherwise one chain containing
the given message, or the default unknown-error text, goes to the event
origin. -/
def return_error_msg (event : Option Dest) (errMsg : Option Json) :
    List (Dest × Payload) :=
  match event with
  | none => []
  | some d => [(d, .errorChain (errMsg.getD (.str "未知错误")))]

/-- Jx3Plugin result_handler (lines 142-183).  The first try wraps only the
post call; the subscript http_result[code] at line 164 and the comparison /
msg subscript at lines 164-166 run outside any handler, so their exceptions
escape; the second try (lines 169-182) wraps the data subscript, the success
handler and the send loop, and turns any exception into a generic error
message. -/
def result_handler (event : Option Dest) (subscriber : List Dest)
    (outcome : HttpOutcome)
    (success_handler : Json → Except PyErr (List OutMsg)) :
    Except PyErr (List (Dest × Payload)) :=
  match outcome with
  | .raised _ => .ok (return_error_msg event none)
  | .returned none => .error .typeError
  | .returned (some hr) =>
    match pyGetItem hr "code" with
    | .error e => .error e
    | .ok codeVal =>
      if Json.beq codeVal (.num 200) = false then
        match pyGetItem hr "msg" with
        | .error e => .error e
        | .ok msgVal => .ok (return_error_msg event (some msgVal))
      else
        match pyGetItem hr "data" with
        | .error _ => .ok (return_error_msg event none)
        | .ok dataVal =>
          match success_handler dataVal with
          | .error _ => .ok (return_error_msg event none)
          | .ok data =>
            if data.isEmpty then .ok []
            else
              let groups := match event with
                | none => subscriber
                | some d => [d]
              .ok (groups.map fun g => (g, Payload.items data))

/-- An API response object with the fields the orchestration layer reads. -/
def mkApiResult (code : Int) (msg dataVal : Json) : Json :=
  .obj (.fcons "code" (.num code) (.fcons "msg" msg (.fcons "data" dataVal .fnil)))

/-- C8: every failure handled at the orchestration boundary (a raised post
call, a non-200 code in the response, or an exception inside the success
handler) sends exactly one error chain to the requesting destination when an
interactive event is present, and sends nothing at all when the call was
scheduler-triggered (event absent). -/
theorem C8_failures_notify_interactive_only
    (d : Dest) (subscriber : List Dest) (n : Int) (msg dataVal : Json)
    (handler : Json → Except PyErr (List OutMsg)) (e : String) (pe : PyErr)
    (hn : n ≠ 200) (hh : handler dataVal = .error pe) :
    result_handler (some d) subscriber (.raised e) handler =
      .ok [(d, .errorChain (.str "未知错误"))] ∧
    result_handler none subscriber (.raised e) handler = .ok [] ∧
    result_handler (some d) subscriber (.returned (some (mkApiResult n msg dataVal)))
        handler = .ok [(d, .errorChain msg)] ∧
    result_handler none subscriber (.returned (some (mkApiResult n msg dataVal)))
        handler = .ok [] ∧
    result_handler (some d) subscriber (.returned (some (mkApiResult 200 msg dataVal)))
        handler = .ok [(d, .errorChain (.str "未知错误"))] ∧
    result_handler none subscriber (.returned (some (mkApiResult 200 msg dataVal)))
        handler = .ok [] := by
  have hb : Json.beq (.num n) (.num 200) = false := by
    simp [Json.beq, hn]
  refine ⟨rfl, rfl, ?_, ?_, ?_, ?_⟩
  · simp [result_handler, mkApiResult, pyGetItem, JsonFields.lookup,
      return_error_msg, hb]
  · simp [result_handler, mkApiResult, pyGetItem, JsonFields.lookup,
      return_error_msg, hb]
  · simp [result_handler, mkApiResult, pyGetItem, JsonFields.lookup,
      return_error_msg, Json.beq, hh]
  · simp [result_handler, mkApiResult, pyGetItem, JsonFields.lookup,
      return_error_msg, Json.beq, hh]

/-- A success handler that always raises (a programming error in a data
handler). -/
def witnessFailingHandler : Json → Except PyErr (List OutMsg) :=
  fun _ => .error .keyError

/-- Witness for C8 at a concrete input: a 500 response notifies the
interactive requester once with the msg field, and is silent for the
scheduler. -/
theorem C8_witness :
    result_handler (some "origin") ["g1", "g2"]
        (.returned (some (mkApiResult 500 (.str "boom") .null)))
        witnessFailingHandler = .ok [("origin", .errorChain (.str "boom"))] ∧
    result_handler none ["g1", "g2"]
        (.returned (some (mkApiResult 500 (.str "boom") .null)))
        witnessFailingHandler = .ok [] :=
  ⟨(C8_failures_notify_interactive_only "origin" ["g1", "g2"] 500 (.str "boom")
      .null witnessFailingHandler "err" .keyError (by decide) rfl).2.2.1,
   (C8_failures_notify_interactive_only "origin" ["g1", "g2"] 500 (.str "boom")
      .null witnessFailingHandler "err" .keyError (by decide) rfl).2.2.2.1⟩

/-- C9: when the HTTP layer reports retry exhaustion by returning the absent
sentinel (AsyncHttpUtil.post returns None without raising), result_handler
subscripts it at http_result[code] outside any exception handler and the
resulting TypeError escapes uncaught: the exhaustion sentinel is never
handled by the orchestration layer. -/
theorem C9_exhaustion_sentinel_unhandled
    (event : Option Dest) (subscriber : List Dest)
    (handler : Json → Except PyErr (List OutMsg)) :
    result_handler event subscriber (.returned none) handler =
      .error .typeError := rfl

/-! ## Change detection (src/main.py, skill_info lines 89-105 and
server_on_status lines 107-128)

Both data handlers are synchronous closures over the scheduler-status
TypedDict: they return the new value of their slot together with the message
components to deliver, or the exception they raise.  Mutations performed
before a raising subscript persist, so the new slot value is returned in the
error case as well. -/

/-- A record of the skills-records API payload with the fields the handler
reads. -/
def mkSkillRecord (id0 title url : Json) : Json :=
  .obj (.fcons "id" id0 (.fcons "title" title (.fcons "url" url .fnil)))

/-- A one-record data array of the skills-records API. -/
def mkSkillData (id0 title url : Json) : Json :=
  .arr (.cons (mkSkillRecord id0 title url) .nil)

/-- Data handler of Jx3Plugin.skill_info (lines 92-103): reads data[0][id],
returns nothing when it equals the stored last id, stores it, stays silent
on the very first observation, and otherwise emits one Plain component with
the record title and url. -/
def skill_data_handler (last data : Json) : Json × Except PyErr (List OutMsg) :=
  match pyGetIndex data 0 with
  | .error e => (last, .error e)
  | .ok first =>
    match pyGetItem first "id" with
    | .error e => (last, .error e)
    | .ok apiId =>
      if Json.beq last apiId then (last, .ok [])
      else if Json.beq last .null then (apiId, .ok [])
      else
        match pyGetItem first "title" with
        | .error e => (apiId, .error e)
        | .ok title =>
          match pyGetItem first "url" with
          | .error e => (apiId, .error e)
          | .ok url => (apiId, .ok [.skillInfo title url])

/-- A stored or received server-status value, the dict with the time and
status fields built at lines 117-120. -/
def mkServerStatus (time status : Json) : Json :=
  .obj (.fcons "time" time (.fcons "status" status .fnil))

/-- Data handler of Jx3Plugin.server_on_status (lines 114-126): always stores
the received time and status pair and, except on the very first observation,
always emits the opening announcement; there is no comparison against the
stored value. -/
def server_data_handler (last : Json) (serverName : String) (data : Json) :
    Json × Except PyErr (List OutMsg) :=
  match pyGetItem data "time" with
  | .error e => (last, .error e)
  | .ok apiTime =>
    match pyGetItem data "status" with
    | .error e => (last, .error e)
    | .ok st =>
      let newLast := mkServerStatus apiTime st
      if Json.beq last .null then (newLast, .ok [])
      else (newLast, .ok [.serverOpen serverName apiTime])

/-- The early return of server_on_status (lines 109-112): polling is skipped
once the stored status is 1.  The stored slot is always None or a dict with
a status field, on which this agrees with the Python conjunction. -/
def server_on_status_skips (last : Json) : Bool :=
  !(Json.beq last .null) &&
    (match pyGetItem last "status" with
     | .ok v => Json.beq v (.num 1)
     | .error _ => false)

/-- C4 counterexample: on the server-status stream, an observation equal to
the stored value is not suppressed: with status 0 stored the poll is not
skipped, and observing the identical time and status pair emits the opening
announcement, contradicting the claim that every logical stream suppresses
repeated values. -/
theorem C4_counterexample :
    server_on_status_skips (mkServerStatus (.num 100) (.num 0)) = false ∧
    server_data_handler (mkServerStatus (.num 100) (.num 0)) "server"
        (mkServerStatus (.num 100) (.num 0)) =
      (mkServerStatus (.num 100) (.num 0),
       .ok [.serverOpen "server" (.num 100)]) :=
  ⟨rfl, rfl⟩

/-- C4 (amended to the skill-info stream): for the last-skill-info-id stream,
a first observation of a non-null id stores it with no notification, an
observation equal to the stored id leaves the state unchanged with no
notification, and an observation differing from a previously stored id
stores the new id and emits a notification. -/
theorem C4_skill_stream_dedup (apiId v title url : Json)
    (hid : Json.beq Json.null apiId = false)
    (hne : Json.beq v apiId = false)
    (hv : Json.beq v Json.null = false) :
    skill_data_handler .null (mkSkillData apiId title url) = (apiId, .ok []) ∧
    skill_data_handler apiId (mkSkillData apiId title url) = (apiId, .ok []) ∧
    skill_data_handler v (mkSkillData apiId title url) =
      (apiId, .ok [.skillInfo title url]) := by
  have hnn : Json.beq Json.null Json.null = true := rfl
  refine ⟨?_, ?_, ?_⟩
  · simp [skill_data_handler, mkSkillData, mkSkillRecord, pyGetIndex,
      pyGetItem, JsonList.get?, JsonFields.lookup, hid, hnn]
  · simp [skill_data_handler, mkSkillData, mkSkillRecord, pyGetIndex,
      pyGetItem, JsonList.get?, JsonFields.lookup, Json.beq_refl apiId]
  · simp [skill_data_handler, mkSkillData, mkSkillRecord, pyGetIndex,
      pyGetItem, JsonList.get?, JsonFields.lookup, hne, hv]

/-- Witness for C4 at concrete inputs: ids A1 then B2 on the skill stream. -/
theorem C4_witness :
    skill_data_handler .null
        (mkSkillData (.str "B2") (.str "titleB") (.str "urlB")) =
      (.str "B2", .ok []) ∧
    skill_data_handler (.str "B2")
        (mkSkillData (.str "B2") (.str "titleB") (.str "urlB")) =
      (.str "B2", .ok []) ∧
    skill_data_handler (.str "A1")
        (mkSkillData (.str "B2") (.str "titleB") (.str "urlB")) =
      (.str "B2", .ok [.skillInfo (.str "titleB") (.str "urlB")]) :=
  C4_skill_stream_dedup (.str "B2") (.str "A1") (.str "titleB") (.str "urlB")
    rfl rfl rfl

/-- Auxiliary facts about structural equality with null. -/
theorem Json.beq_null_eq_false (j : Json) (h : j ≠ .null) :
    Json.beq j .null = false := by
  cases j
  · exact absurd rfl h
  all_goals rfl

/-- Result of one observation of the dedup state machine, per the spec's
classification of the branches of the skill handler. -/
inductive ObserveResult where
  | baseline
  | suppressed
  | changed (previous value : Json)

/-- The read-modify-write performed by the skill_info data handler on the
last-skill-info-id slot (src/main.py lines 94-100), with the result
classified: the early equality return is Suppressed, the first-initialization
path is Baseline, and the message-emitting path is Changed.  The handler body
is synchronous (it contains no await), so on the asyncio event loop every
observation executes atomically and two concurrent observations run in one of
the two serial orders. -/
def observe (last v : Json) : ObserveResult × Json :=
  if Json.beq last v then (.suppressed, last)
  else if Json.beq last .null then (.baseline, v)
  else (.changed last v, v)

/-- Recognizer for the baseline result. -/
def isBaseline : ObserveResult → Bool
  | .baseline => true
  | _ => false

/-- The previous value a changed result reports, if any. -/
def changedPrevious : ObserveResult → Option Json
  | .changed p _ => some p
  | _ => none

/-- Whether two observation results are both Changed from the same previous
value. -/
def sameChangedPrevious (a b : ObserveResult) : Bool :=
  match changedPrevious a with
  | none => false
  | some p =>
    match changedPrevious b with
    | none => false
    | some q => Json.beq p q

/-- The classification and the source handler update the stored slot
identically. -/
theorem observe_state_matches_skill_handler (last apiId title url : Json) :
    (observe last apiId).2 =
      (skill_data_handler last (mkSkillData apiId title url)).1 := by
  have e1 : pyGetIndex (mkSkillData apiId title url) 0 =
      .ok (mkSkillRecord apiId title url) := rfl
  have e2 : pyGetItem (mkSkillRecord apiId title url) "id" = .ok apiId := rfl
  have e3 : pyGetItem (mkSkillRecord apiId title url) "title" = .ok title := rfl
  have e4 : pyGetItem (mkSkillRecord apiId title url) "url" = .ok url := rfl
  by_cases h1 : Json.beq last apiId = true
  · simp [observe, skill_data_handler, e1, e2, h1]
  · rw [Bool.not_eq_true] at h1
    by_cases h0 : Json.beq last .null = true
    · simp [observe, skill_data_handler, e1, e2, h1, h0]
    · rw [Bool.not_eq_true] at h0
      simp [observe, skill_data_handler, e1, e2, e3, e4, h1, h0]

/-- The source handler emits a notification exactly when the classification
reports Changed. -/
theorem skill_handler_notifies_iff_changed (last apiId title url : Json) :
    (skill_data_handler last (mkSkillData apiId title url)).2 =
      .ok (match (observe last apiId).1 with
           | .changed _ _ => [OutMsg.skillInfo title url]
           | _ => []) := by
  have e1 : pyGetIndex (mkSkillData apiId title url) 0 =
      .ok (mkSkillRecord apiId title url) := rfl
  have e2 : pyGetItem (mkSkillRecord apiId title url) "id" = .ok apiId := rfl
  have e3 : pyGetItem (mkSkillRecord apiId title url) "title" = .ok title := rfl
  have e4 : pyGetItem (mkSkillRecord apiId title url) "url" = .ok url := rfl
  by_cases h1 : Json.beq last apiId = true
  · simp [observe, skill_data_handler, e1, e2, h1]
  · rw [Bool.not_eq_true] at h1
    by_cases h0 : Json.beq last .null = true
    · simp [observe, skill_data_handler, e1, e2, h1, h0]
    · rw [Bool.not_eq_true] at h0
      simp [observe, skill_data_handler, e1, e2, e3, e4, h1, h0]

/-- C10: under the cooperative scheduling of the event loop, two concurrent
observations of the same stream key serialize, and in either serial order
they never both report Baseline, and never both report Changed from the same
previous value. -/
theorem C10_no_duplicate_baseline_or_double_transition (last v1 v2 : Json) :
    (isBaseline (observe last v1).1 &&
      isBaseline (observe (observe last v1).2 v2).1) = false ∧
    sameChangedPrevious (observe last v1).1
      (observe (observe last v1).2 v2).1 = false := by
  by_cases h1 : Json.beq last v1 = true
  · simp [observe, h1, isBaseline, sameChangedPrevious, changedPrevious]
  · rw [Bool.not_eq_true] at h1
    by_cases h0 : Json.beq last .null = true
    · have hl : last = .null := Json.eq_null_of_beq_null last h0
      subst hl
      have hv1 : v1 ≠ Json.null := by
        intro h
        subst h
        simp [Json.beq] at h1
      have hv1n : Json.beq v1 .null = false := Json.beq_null_eq_false v1 hv1
      by_cases h2 : Json.beq v1 v2 = true
      · simp [observe, h1, h0, h2, isBaseline, sameChangedPrevious,
          changedPrevious]
      · rw [Bool.not_eq_true] at h2
        simp [observe, h1, h0, h2, hv1n, isBaseline, sameChangedPrevious,
          changedPrevious]
    · rw [Bool.not_eq_true] at h0
      by_cases h2 : Json.beq v1 v2 = true
      · simp [observe, h1, h0, h2, isBaseline, sameChangedPrevious,
          changedPrevious]
      · rw [Bool.not_eq_true] at h2
        by_cases h3 : Json.beq v1 .null = true
        · simp [observe, h1, h0, h2, h3, isBaseline, sameChangedPrevious,
            changedPrevious]
        · rw [Bool.not_eq_true] at h3
          simp [observe, h1, h0, h2, h3, isBaseline, sameChangedPrevious,
            changedPrevious]

/-! ## CronSchedulerUtil (src/util/job_util.py)

The cron machinery (the croniter library and the datetime arithmetic used by
cron_worker at lines 58-68) is not part of the repository; it is modelled
from the spec: a cron expression is a standard 5-field specification
(minute, hour, day of month, month, day of week), an invalid expression
fails to parse, and get_next from a reference instant is the earliest
minute-aligned instant strictly after it that the expression matches,
including the standard either-or rule when both day fields are restricted.
Time is counted in whole minutes since 1970-01-01T00:00. -/

/-- Splits a character list on a separator, keeping empty pieces. -/
def splitChar (sep : Char) : List Char → List (List Char)
  | [] => [[]]
  | c :: cs =>
    let rest := splitChar sep cs
    if c = sep then [] :: rest
    else
      match rest with
      | [] => [[c]]
      | r :: rs => (c :: r) :: rs

/-- Splits on spaces and drops empty pieces (whitespace field separation). -/
def splitWs (xs : List Char) : List (List Char) :=
  (splitChar ' ' xs).filter (· ≠ [])

/-- Value of one decimal digit. -/
def digitVal? (c : Char) : Option Nat :=
  if '0' ≤ c ∧ c ≤ '9' then some (c.toNat - '0'.toNat) else none

/-- Decimal reading of a nonempty all-digit character list. -/
def charsToNat? (xs : List Char) : Option Nat :=
  match xs with
  | [] => none
  | _ =>
    xs.foldl
      (fun acc c =>
        match acc, digitVal? c with
        | some n, some d => some (n * 10 + d)
        | _, _ => none)
      (some 0)

/-- The values from lo to hi in steps of step. -/
def rangeList (lo hi step : Nat) : List Nat :=
  (List.range (hi + 1 - lo)).filterMap
    (fun i => if i % step = 0 then some (lo + i) else none)

/-- Modelled from the spec: one range part of a cron field item, a star, a
single value, or a dashed range, expanded with the given step and checked
against the field bounds. -/
def parseBase (lo hi step : Nat) (base : List Char) : Option (List Nat) :=
  if base = ['*'] then some (rangeList lo hi step)
  else
    match splitChar '-' base with
    | [a] =>
      match charsToNat? a with
      | some v => if lo ≤ v ∧ v ≤ hi then some [v] else none
      | none => none
    | [a, b] =>
      match charsToNat? a, charsToNat? b with
      | some x, some y =>
        if lo ≤ x ∧ x ≤ y ∧ y ≤ hi then some (rangeList x y step) else none
      | _, _ => none
    | _ => none

/-- Modelled from the spec: one comma-separated item of a cron field, a range
part with an optional positive step after a slash. -/
def parseItem (lo hi : Nat) (item : List Char) : Option (List Nat) :=
  match splitChar '/' item with
  | [base] => parseBase lo hi 1 base
  | [base, st] =>
    match charsToNat? st with
    | some n => if n = 0 then none else parseBase lo hi n base
    | none => none
  | _ => none

/-- Modelled from the spec: a full cron field, the union of its
comma-separated items. -/
def parseField (lo hi : Nat) (field : List Char) : Option (List Nat) :=
  (splitChar ',' field).foldl
    (fun acc it =>
      match acc, parseItem lo hi it with
      | some l, some l2 => some (l ++ l2)
      | _, _ => none)
    (some [])

/-- A parsed 5-field cron expression: the allowed values of each field, and
whether each day field was the unrestricted star (for the standard either-or
day rule). -/
structure CronSpec where
  minute : List Nat
  hour : List Nat
  dom : List Nat
  month : List Nat
  dow : List Nat
  domStar : Bool
  dowStar : Bool
deriving DecidableEq

/-- Modelled from the spec: parsing of a standard 5-field cron expression
(minute 0-59, hour 0-23, day of month 1-31, month 1-12, day of week 0-7 with
7 meaning Sunday); anything else is syntactically invalid. -/
def parseCron (expr : String) : Option CronSpec :=
  match splitWs expr.data with
  | [mi, h, dm, mo, dw] =>
    match parseField 0 59 mi, parseField 0 23 h, parseField 1 31 dm,
        parseField 1 12 mo, parseField 0 7 dw with
    | some miL, some hL, some dmL, some moL, some dwL =>
      some
        { minute := miL, hour := hL, dom := dmL, month := moL,
          dow := dwL.map (· % 7),
          domStar := dm = ['*'], dowStar := dw = ['*'] }
    | _, _, _, _, _ => none
  | _ => none

/-- Proleptic Gregorian civil date (year, month, day) of a day count since
1970-01-01, by the standard era decomposition. -/
def civilFromDays (days : Nat) : Nat × Nat × Nat :=
  let z := days + 719468
  let era := z / 146097
  let doe := z % 146097
  let yoe := (doe - doe / 1460 + doe / 36524 - doe / 146096) / 365
  let y := yoe + era * 400
  let doy := doe - (365 * yoe + yoe / 4 - yoe / 100)
  let mp := (5 * doy + 2) / 153
  let d := doy - (153 * mp + 2) / 5 + 1
  let m := if mp < 10 then mp + 3 else mp - 9
  (y + (if m ≤ 2 then 1 else 0), m, d)

/-- Day of week of a day count since 1970-01-01 (a Thursday), with 0 being
Sunday as in cron. -/
def weekday (days : Nat) : Nat := (days + 4) % 7

/-- Modelled from the spec: whether a minute instant matches a cron
expression under standard 5-field semantics, with the either-or rule when
both day fields are restricted. -/
def cronMatches (c : CronSpec) (t : Nat) : Bool :=
  let minute := t % 60
  let hour := t / 60 % 24
  let days := t / 1440
  let ymd := civilFromDays days
  c.minute.contains minute && c.hour.contains hour &&
    c.month.contains ymd.2.1 &&
    (if c.domStar && c.dowStar then true
     else if c.domStar then c.dow.contains (weekday days)
     else if c.dowStar then c.dom.contains ymd.2.2
     else c.dom.contains ymd.2.2 || c.dow.contains (weekday days))

/-- Modelled from the spec: the next occurrence of a cron expression strictly
after the instant t, searched minute by minute within the given fuel. -/
def nextOccurrence (c : CronSpec) : Nat → Nat → Option Nat
  | _, 0 => none
  | t, fuel + 1 =>
    if cronMatches c (t + 1) then some (t + 1)
    else nextOccurrence c (t + 1) fuel

/-- Outcome of the first iteration of CronSchedulerUtil cron_worker
(lines 49-69): the croniter construction at line 58 runs before the loop, so
an invalid expression raises out of the coroutine before any fire time is
computed; otherwise the first fire time is the next occurrence after the
seed instant. -/
inductive WorkerFirstStep where
  | parseFailure
  | scheduled (t : Nat)
  | searchFailed
deriving DecidableEq

/-- First scheduling step of a cron worker seeded at the instant now. -/
def cron_worker_first (cron_expr : String) (now fuel : Nat) : WorkerFirstStep :=
  match parseCron cron_expr with
  | none => .parseFailure
  | some c =>
    match nextOccurrence c now fuel with
    | some t => .scheduled t
    | none => .searchFailed

/-- Phase of one TaskWorker coroutine. -/
inductive WorkerPhase where
  | running
  | terminated
deriving DecidableEq

/-- One TaskWorker handle as stored in task_handles. -/
structure WorkerState where
  phase : WorkerPhase
  cancelRequested : Bool
deriving DecidableEq

/-- The scheduler state of src/util/job_util.py lines 12-14: the registered
tasks (job identifier and cron expression; bound arguments omitted) and the
started worker handles. -/
structure CronSchedulerUtil where
  tasks : List (Nat × String)
  task_handles : List WorkerState
deriving DecidableEq

namespace CronSchedulerUtil

/-- CronSchedulerUtil.add_task (lines 16-26): appends the task and
immediately starts its worker via asyncio.create_task, which only builds the
coroutine and schedules it; the cron expression is not examined here, so
registration never fails and a handle is always appended. -/
def add_task (s : CronSchedulerUtil) (job : Nat) (cron_expr : String) :
    CronSchedulerUtil :=
  { tasks := s.tasks ++ [(job, cron_expr)],
    task_handles :=
      s.task_handles ++ [{ phase := .running, cancelRequested := false }] }

/-- CronSchedulerUtil.stop (lines 28-34): requests cancellation of every
handle, awaits them all with exceptions collected (each worker breaks out of
its loop at its next suspension point and terminates), and clears the handle
list.  Returns the new scheduler state together with the settled final
worker states the gather awaited. -/
def stop (s : CronSchedulerUtil) : CronSchedulerUtil × List WorkerState :=
  ({ s with task_handles := [] },
   s.task_handles.map fun _ => { phase := .terminated, cancelRequested := true })

end CronSchedulerUtil

/-- What reaches a worker during one iteration of its loop: an undisturbed
sleep-then-dispatch cycle, a cancellation delivered at its suspension point,
or an internal error (logged, one-second cooldown, loop retried). -/
inductive WorkerSignal where
  | tick
  | cancelSignal
  | internalError

/-- One iteration of the cron_worker loop (lines 60-74) over a worker state:
a terminated coroutine never runs again; cancellation breaks out of the
loop; an internal error is logged without dispatching; an undisturbed
iteration dispatches the job.  The returned Bool reports whether a job
invocation was dispatched. -/
def workerStep (w : WorkerState) (sig : WorkerSignal) : WorkerState × Bool :=
  match w.phase with
  | .terminated => (w, false)
  | .running =>
    match sig with
    | .cancelSignal => ({ w with phase := .terminated }, false)
    | .internalError => (w, false)
    | .tick => (w, true)

/-- Dispatch trace of a worker over a list of signals. -/
def workerRun (w : WorkerState) : List WorkerSignal → List Bool
  | [] => []
  | sig :: rest =>
    let step := workerStep w sig
    step.2 :: workerRun step.1 rest

/-- A terminated worker never dispatches again. -/
theorem workerRun_terminated (c : Bool) :
    ∀ sigs, (workerRun { phase := .terminated, cancelRequested := c } sigs).all
      (fun d => d == false) = true
  | [] => rfl
  | _ :: rest => by
    simp [workerRun, workerStep]
    simpa using workerRun_terminated c rest

/-- Soundness of the bounded next-occurrence search: a found instant is
strictly after the reference instant, matches the expression, and is the
earliest such instant. -/
theorem nextOccurrence_sound (c : CronSpec) :
    ∀ fuel T t, nextOccurrence c T fuel = some t →
      T < t ∧ cronMatches c t = true ∧
      ∀ u, T < u → u < t → cronMatches c u = false := by
  intro fuel
  induction fuel with
  | zero =>
    intro T t h
    simp [nextOccurrence] at h
  | succ n ih =>
    intro T t h
    by_cases hm : cronMatches c (T + 1) = true
    · simp only [nextOccurrence, hm, if_true] at h
      injection h with h2
      subst h2
      refine ⟨by omega, hm, ?_⟩
      intro u h1 h2
      exact absurd h2 (by omega)
    · rw [Bool.not_eq_true] at hm
      simp only [nextOccurrence, hm, Bool.false_eq_true, if_false] at h
      have ihh := ih (T + 1) t h
      refine ⟨by omega, ihh.2.1, ?_⟩
      intro u h1 h2
      by_cases he : u = T + 1
      · subst he
        exact hm
      · exact ihh.2.2 u (by omega) h2

/-- C5: for every valid cron expression and every worker-start instant at
which the cron cursor is seeded, the first computed fire time found by the
worker is strictly greater than the seed instant and is the expression's
next occurrence under standard 5-field cron semantics (it matches the
expression and no earlier instant after the seed does); in particular an
expression matching the seed instant exactly fires at its next occurrence,
not at the seed. -/
theorem C5_first_fire_is_next_occurrence
    (E : String) (c : CronSpec) (T fuel t : Nat)
    (hp : parseCron E = some c) (hn : nextOccurrence c T fuel = some t) :
    cron_worker_first E T fuel = .scheduled t ∧
    T < t ∧ cronMatches c t = true ∧
    ∀ u, T < u → u < t → cronMatches c u = false := by
  have hs := nextOccurrence_sound c fuel T t hn
  exact ⟨by simp [cron_worker_first, hp, hn], hs.1, hs.2.1, hs.2.2⟩

/-- The parsed form of the expression 0 12 * * * used by the plugin. -/
def noonSpec : CronSpec :=
  { minute := [0], hour := [12], dom := rangeList 1 31 1,
    month := rangeList 1 12 1, dow := (rangeList 0 7 1).map (· % 7),
    domStar := true, dowStar := true }

/-- Minutes since epoch of 2024-01-01T12:00, the reference instant of the
spec's example, which matches 0 12 * * * exactly. -/
def noonSeed : Nat := 28401840

set_option maxRecDepth 100000 in
/-- Witness for C5 at the spec's example: a worker for 0 12 * * * seeded at
2024-01-01T12:00 first fires at 2024-01-02T12:00 (minute 28403280), the seed
instant itself being excluded. -/
theorem C5_witness :
    parseCron "0 12 * * *" = some noonSpec ∧
    nextOccurrence noonSpec noonSeed 1441 = some 28403280 ∧
    cron_worker_first "0 12 * * *" noonSeed 1441 = .scheduled 28403280 ∧
    noonSeed < 28403280 :=
  have hp : parseCron "0 12 * * *" = some noonSpec := by decide
  have hn : nextOccurrence noonSpec noonSeed 1441 = some 28403280 := by decide
  ⟨hp, hn,
   (C5_first_fire_is_next_occurrence "0 12 * * *" noonSpec noonSeed 1441
      28403280 hp hn).1,
   (C5_first_fire_is_next_occurrence "0 12 * * *" noonSpec noonSeed 1441
      28403280 hp hn).2.1⟩

set_option maxRecDepth 4096 in
/-- C1 counterexample: registration does not fail for a syntactically
invalid cron expression and a TaskWorker is still created; add_task on the
invalid expression appends a worker handle (registration surfaces no error,
since the expression is first examined inside the worker coroutine). -/
theorem C1_counterexample :
    parseCron "every day at noon" = none ∧
    List.length
      (CronSchedulerUtil.add_task ⟨[], []⟩ 0 "every day at noon").task_handles
      = 1 :=
  ⟨by decide, rfl⟩

/-- C1 (amended): add_task never fails at registration time; the task is
appended and a TaskWorker handle is always created, whatever the cron
expression; for a syntactically invalid expression the error surfaces only
inside the worker coroutine, whose first step fails at the croniter
construction before any fire time is computed, so no fire ever occurs. -/
theorem C1_invalid_cron_fails_in_worker
    (s : CronSchedulerUtil) (job : Nat) (e : String) (now fuel : Nat)
    (hinv : parseCron e = none) :
    (CronSchedulerUtil.add_task s job e).tasks = s.tasks ++ [(job, e)] ∧
    (CronSchedulerUtil.add_task s job e).task_handles.length =
      s.task_handles.length + 1 ∧
    cron_worker_first e now fuel = .parseFailure :=
  ⟨rfl, by simp [CronSchedulerUtil.add_task], by simp [cron_worker_first, hinv]⟩

set_option maxRecDepth 4096 in
/-- Witness for C1 at a concrete invalid expression. -/
theorem C1_witness :
    parseCron "not a cron expression" = none ∧
    List.length
      (CronSchedulerUtil.add_task ⟨[], []⟩ 7 "not a cron expression").task_handles
      = (⟨[], []⟩ : CronSchedulerUtil).task_handles.length + 1 ∧
    cron_worker_first "not a cron expression" 0 0 = .parseFailure :=
  have h : parseCron "not a cron expression" = none := by decide
  ⟨h,
   (C1_invalid_cron_fails_in_worker ⟨[], []⟩ 7 "not a cron expression" 0 0
      h).2.1,
   (C1_invalid_cron_fails_in_worker ⟨[], []⟩ 7 "not a cron expression" 0 0
      h).2.2⟩

/-- C7: stop is idempotent (a second call after a completed one changes
nothing and settles nothing), every worker it awaited has reached the
terminated phase when it returns, and a terminated worker dispatches no
further sleep-then-dispatch cycle under any later schedule of signals. -/
theorem C7_stop_idempotent_and_no_further_dispatch
    (s : CronSchedulerUtil) (sigs : List WorkerSignal) :
    CronSchedulerUtil.stop (CronSchedulerUtil.stop s).1 =
      ((CronSchedulerUtil.stop s).1, []) ∧
    ((CronSchedulerUtil.stop s).2.all
      fun w => w.phase == WorkerPhase.terminated) = true ∧
    ((CronSchedulerUtil.stop s).2.all
      fun w => (workerRun w sigs).all (fun d => d == false)) = true := by
  refine ⟨rfl, ?_, ?_⟩
  · simp [CronSchedulerUtil.stop, List.all_map, Function.comp]
  · have hterm := workerRun_terminated true sigs
    simp [CronSchedulerUtil.stop, List.all_map, Function.comp]
    exact Or.inr (by simpa using hterm)
